import Mathlib

/-!
Shallow embedding of the jupiter-quote-api price service core:
the token resolver (src/price/utils/getTokenInfoFromSymbol.ts),
the account snapshot merge loop (src/index.ts worker message handler),
the compressed account batch deserializer (src/utils/accountInfos.ts),
and the price route handler with its cache lookup and background
refresh admission logic (src/price/index.ts).
JavaScript Map objects are modelled as association lists with
insertion-order iteration, numbers as rationals (with an explicit NaN
constructor where the code can observe NaN), and fallible external
calls as Option/Except values.
-/

/-- JS Map.get: first entry with the key, none when absent. -/
def alGet {α : Type} (m : List (String × α)) (k : String) : Option α :=
  match m with
  | [] => none
  | (k2, v) :: rest => if k2 = k then some v else alGet rest k

/-- JS Map.set: update in place when the key exists (keeping insertion
order), otherwise append the new entry at the end. -/
def alSet {α : Type} (m : List (String × α)) (k : String) (v : α) : List (String × α) :=
  match m with
  | [] => [(k, v)]
  | (k2, w) :: rest => if k2 = k then (k, v) :: rest else (k2, w) :: alSet rest k v

instance {ε α : Type} [DecidableEq ε] [DecidableEq α] : DecidableEq (Except ε α) :=
  fun a b =>
    match a, b with
    | Except.ok x, Except.ok y =>
      if h : x = y then Decidable.isTrue (by rw [h])
      else Decidable.isFalse (fun hh => h (Except.ok.inj hh))
    | Except.error x, Except.error y =>
      if h : x = y then Decidable.isTrue (by rw [h])
      else Decidable.isFalse (fun hh => h (Except.error.inj hh))
    | Except.ok _, Except.error _ => Decidable.isFalse (fun hh => Except.noConfusion hh)
    | Except.error _, Except.ok _ => Decidable.isFalse (fun hh => Except.noConfusion hh)

/-- Token record from the registry: address, symbol, decimals and tags
(spl-token-registry TokenInfo, the fields this service reads). -/
structure TokenInfo where
  address : String
  symbol : String
  decimals : Nat
  tags : List String
deriving DecidableEq

/-- TokenInfoResolver.isUnknownToken: tokenInfo.tags?.[0] === "unknown". -/
def isUnknownToken (t : TokenInfo) : Bool :=
  t.tags.head? = some "unknown"

/-- The three indices of TokenInfoResolver: address → record, symbol →
verified records, symbol → all records. -/
structure TokenInfoResolver where
  tokenMap : List (String × TokenInfo)
  verifiedSymbolMap : List (String × List TokenInfo)
  allSymbolMap : List (String × List TokenInfo)

/-- The sort comparator used when extending an allSymbolMap bucket:
it orders unknown-tagged tokens after known ones, so the bucket is the
known records followed by the unknown ones. -/
def moveUnknownRight (l : List TokenInfo) : List TokenInfo :=
  l.filter (fun t => !(isUnknownToken t)) ++ l.filter (fun t => isUnknownToken t)

/-- One iteration of the fetchTokenInfos forEach: index the record by
address, by symbol among verified records when it is not unknown-tagged,
and by symbol among all records. -/
def addToken (r : TokenInfoResolver) (t : TokenInfo) : TokenInfoResolver :=
  { tokenMap := alSet r.tokenMap t.address t
    verifiedSymbolMap :=
      if isUnknownToken t then r.verifiedSymbolMap
      else
        match alGet r.verifiedSymbolMap t.symbol with
        | some symbolExist => alSet r.verifiedSymbolMap t.symbol (symbolExist ++ [t])
        | none => alSet r.verifiedSymbolMap t.symbol [t]
    allSymbolMap :=
      match alGet r.allSymbolMap t.symbol with
      | some symbolExist => alSet r.allSymbolMap t.symbol (moveUnknownRight (symbolExist ++ [t]))
      | none => alSet r.allSymbolMap t.symbol [t] }

def emptyResolver : TokenInfoResolver :=
  { tokenMap := [], verifiedSymbolMap := [], allSymbolMap := [] }

/-- fetchTokenInfos applied to a successfully fetched registry list. -/
def buildResolver (records : List TokenInfo) : TokenInfoResolver :=
  records.foldl addToken emptyResolver

/-- Result of a resolver lookup: a single record, or the ambiguous
candidate list (the code returns either a TokenInfo or an array). -/
inductive ResolveResult where
  | one (t : TokenInfo)
  | many (ts : List TokenInfo)
deriving DecidableEq

/-- TokenInfoResolver.getTokenInfoFromSymbol: a unique verified match
wins; otherwise a multi-record allSymbolMap bucket is returned whole as
the ambiguous case, a singleton bucket as a single match, and anything
else is not found. -/
def getTokenInfoFromSymbol (r : TokenInfoResolver) (symbol : String) : Option ResolveResult :=
  let fromAllMap :=
    match alGet r.allSymbolMap symbol with
    | some allTokens =>
      if allTokens.length > 1 then some (ResolveResult.many allTokens)
      else
        match allTokens with
        | [t] => some (ResolveResult.one t)
        | _ => none
    | none => none
  match alGet r.verifiedSymbolMap symbol with
  | some verifiedTokens =>
    match verifiedTokens with
    | [t] => some (ResolveResult.one t)
    | _ => fromAllMap
  | none => fromAllMap

/-- TokenInfoResolver.get: empty input is falsy; a string of length 32
to 48 is treated as an address and looked up in tokenMap; anything else
goes through symbol resolution. -/
def TokenInfoResolver.get (r : TokenInfoResolver) (symbolOrAddress : String) : Option ResolveResult :=
  if symbolOrAddress.length = 0 then none
  else if 32 ≤ symbolOrAddress.length ∧ symbolOrAddress.length ≤ 48 then
    (alGet r.tokenMap symbolOrAddress).map ResolveResult.one
  else getTokenInfoFromSymbol r symbolOrAddress

/-- Shape of a symbol lookup outcome: one record, an ambiguous list, or
not found. -/
inductive LookupKind where
  | single
  | ambiguous
  | missing
deriving DecidableEq

def kindOf : Option ResolveResult → LookupKind
  | some (ResolveResult.one _) => LookupKind.single
  | some (ResolveResult.many _) => LookupKind.ambiguous
  | none => LookupKind.missing

/-- Number of registry records carrying a symbol. -/
def countSymbol (records : List TokenInfo) (symbol : String) : Nat :=
  match records with
  | [] => 0
  | t :: rest => (if t.symbol = symbol then 1 else 0) + countSymbol rest symbol

/-- Number of verified (not unknown-tagged) registry records carrying a
symbol. -/
def countVerifiedSymbol (records : List TokenInfo) (symbol : String) : Nat :=
  match records with
  | [] => 0
  | t :: rest =>
    (if t.symbol = symbol ∧ isUnknownToken t = false then 1 else 0) + countVerifiedSymbol rest symbol

/-- Decoded account snapshot as stored in store.accountInfos
(AccountInfo of Buffer; the owner public key is modelled by its base58
string). -/
structure AccountSnapshot where
  owner : String
  lamports : Nat
  data : List Nat
  executable : Bool
  rentEpoch : Nat
deriving DecidableEq

/-- new PublicKey(owner) on a base58 string: same key, typed. -/
def publicKeyOf (owner : String) : String := owner

/-- Buffer.from(data): a copy with the same bytes. -/
def bufferFrom (data : List Nat) : List Nat := data

/-- One iteration of the worker-message accountInfosMap.forEach loop:
when the store already holds the address, the existing record gets the
new data buffer assigned and is written back; only when the address is
new is the incoming value (data rewrapped, owner converted to a
PublicKey) inserted. -/
def mergeAccountInfo (store : List (String × AccountSnapshot)) (key : String)
    (value : AccountSnapshot) : List (String × AccountSnapshot) :=
  let newData := bufferFrom value.data
  match alGet store key with
  | some accountInfo => alSet store key { accountInfo with data := newData }
  | none => alSet store key { value with data := newData, owner := publicKeyOf value.owner }

/-- The whole accountInfosMap.forEach merge pass of one update batch. -/
def mergeBatch (store : List (String × AccountSnapshot))
    (accountInfosMap : List (String × AccountSnapshot)) : List (String × AccountSnapshot) :=
  accountInfosMap.foldl (fun st kv => mergeAccountInfo st kv.1 kv.2) store

/-- Wire form of an account in an update batch: data is an array of
base64 strings whose first element holds the zstd-compressed payload. -/
structure RawAccountInfo where
  owner : String
  lamports : Nat
  data : List String
  executable : Bool
  rentEpoch : Nat
deriving DecidableEq

/-- deserializeAccountInfo: decompress accountInfo.data[0]; a missing
element or a decompression error throws (none). The zstd codec together
with the base64 decode is the decompress parameter. -/
def deserializeAccountInfo (decompress : String → Option (List Nat))
    (accountInfo : RawAccountInfo) : Option AccountSnapshot :=
  match accountInfo.data.head? with
  | none => none
  | some chunk =>
    match decompress chunk with
    | none => none
    | some bytes =>
      some { owner := accountInfo.owner, lamports := accountInfo.lamports,
             data := bytes, executable := accountInfo.executable,
             rentEpoch := accountInfo.rentEpoch }

/-- One iteration of the deserializeAccountInfosMap forEach: an
exception thrown for any entry propagates, so a failed accumulator stays
failed and a failing entry fails the accumulator. -/
def deserializeStep (decompress : String → Option (List Nat))
    (acc : Option (List (String × AccountSnapshot)))
    (kv : String × RawAccountInfo) : Option (List (String × AccountSnapshot)) :=
  match acc with
  | none => none
  | some out =>
    match deserializeAccountInfo decompress kv.2 with
    | none => none
    | some v => some (alSet out kv.1 v)

/-- deserializeAccountInfosMap: build the decoded map entry by entry;
there is no per-entry error handling, so one bad payload makes the whole
call throw. -/
def deserializeAccountInfosMap (decompress : String → Option (List Nat))
    (accountInfosMap : List (String × RawAccountInfo)) : Option (List (String × AccountSnapshot)) :=
  accountInfosMap.foldl (deserializeStep decompress) (some [])

/-- Background refresh admission (the checks guarding the setTimeout
body): return early when the local tracker already has the key or holds
more than 10 entries, then again when the shared redis marker for the
key is present. -/
def refreshDropped (backgroundTasksTracker : List String) (cacheKey : String)
    (markerPresent : Bool) : Bool :=
  if backgroundTasksTracker.contains cacheKey || backgroundTasksTracker.length > 10 then true
  else if markerPresent then true
  else false

/-- Shared state touched by one refresh run for one key: the redis
marker for the key and membership of the key in the local tracker. -/
structure RefreshKeyState where
  markerPresent : Bool
  inLocalSet : Bool
deriving DecidableEq

/-- The admitted refresh body: try { set the marker; add the key to the
tracker; run computeResult; delete the marker } finally { remove the key
from the tracker }. The marker delete sits before computeResult has
returned control on failure, so it is skipped when the compute throws;
the tracker removal is in the finally block and always runs. -/
def runRefreshBody (computeSucceeds : Bool) (s : RefreshKeyState) : RefreshKeyState :=
  let s1 : RefreshKeyState := { s with markerPresent := true }
  let s2 : RefreshKeyState := { s1 with inLocalSet := true }
  let s3 : RefreshKeyState :=
    if computeSucceeds then { s2 with markerPresent := false } else s2
  { s3 with inLocalSet := false }

/-- System state for two service instances refreshing the same cache
key. Each pc counts the awaited steps of one refresh task: 0 local
tracker check, 1 marker read, 2 marker set, 3 tracker add, 4 compute in
flight, 5 marker delete, 6 tracker removal, 7 finished or dropped. -/
structure FineState where
  markerPresent : Bool
  pc0 : Nat
  pc1 : Nat
  local0 : Bool
  local1 : Bool
deriving DecidableEq

/-- One awaited step of a single refresh task, mirroring the await
boundaries in the code: the marker read and the marker set are separate
steps with the shared store visible in between. -/
def fineInstStep (markerPresent : Bool) (localMine : Bool) (pc : Nat) : Bool × Bool × Nat :=
  if pc = 0 then (markerPresent, localMine, if localMine then 7 else 1)
  else if pc = 1 then (markerPresent, localMine, if markerPresent then 7 else 2)
  else if pc = 2 then (true, localMine, 3)
  else if pc = 3 then (markerPresent, true, 4)
  else if pc = 4 then (markerPresent, localMine, 5)
  else if pc = 5 then (false, localMine, 6)
  else if pc = 6 then (markerPresent, false, 7)
  else (markerPresent, localMine, pc)

def fineSysStep (s : FineState) (i : Fin 2) : FineState :=
  if i = 0 then
    let r := fineInstStep s.markerPresent s.local0 s.pc0
    { s with markerPresent := r.1, local0 := r.2.1, pc0 := r.2.2 }
  else
    let r := fineInstStep s.markerPresent s.local1 s.pc1
    { s with markerPresent := r.1, local1 := r.2.1, pc1 := r.2.2 }

def fineInit : FineState :=
  { markerPresent := false, pc0 := 0, pc1 := 0, local0 := false, local1 := false }

/-- Run the two refresh tasks under a given interleaving. -/
def fineRun (sched : List (Fin 2)) : FineState :=
  sched.foldl fineSysStep fineInit

/-- Both tasks have started computeResult and neither has finished. -/
def fineBothComputing (s : FineState) : Bool :=
  decide (s.pc0 = 4) && decide (s.pc1 = 4)

/-- Coarse model in which a refresh task performs its whole admission
(tracker check, marker read, marker set, tracker add) as one atomic
step. Phases: 0 start, 1 compute in flight, 2 computed awaiting cleanup,
3 finished or dropped. -/
structure AtomicState where
  markerPresent : Bool
  ph0 : Fin 4
  ph1 : Fin 4
deriving DecidableEq, Fintype

def atomicInstStep (markerPresent : Bool) (ph : Fin 4) : Bool × Fin 4 :=
  if ph = 0 then (if markerPresent then (markerPresent, 3) else (true, 1))
  else if ph = 1 then (markerPresent, 2)
  else if ph = 2 then (false, 3)
  else (markerPresent, ph)

def atomicSysStep (s : AtomicState) (i : Fin 2) : AtomicState :=
  if i = 0 then
    let r := atomicInstStep s.markerPresent s.ph0
    { s with markerPresent := r.1, ph0 := r.2 }
  else
    let r := atomicInstStep s.markerPresent s.ph1
    { s with markerPresent := r.1, ph1 := r.2 }

def atomicInit : AtomicState := { markerPresent := false, ph0 := 0, ph1 := 0 }

def atomicRun (sched : List (Fin 2)) : AtomicState :=
  sched.foldl atomicSysStep atomicInit

def phActive (ph : Fin 4) : Bool := decide (ph = 1) || decide (ph = 2)

/-- Invariant of the atomic-admission model: the marker is present
exactly while some task is between admission and cleanup, and at most
one task is in that window. -/
def atomicInv (s : AtomicState) : Bool :=
  (s.markerPresent == (phActive s.ph0 || phActive s.ph1))
    && !(phActive s.ph0 && phActive s.ph1)

def atomicBothComputing (s : AtomicState) : Bool :=
  decide (s.ph0 = 1) && decide (s.ph1 = 1)

/-- A JS number as the price route sees it: an actual numeric value or
NaN. -/
inductive JSNum where
  | nan
  | num (q : ℚ)
deriving DecidableEq

/-- JS truthiness of a number: 0 and NaN are falsy. -/
def JSNum.truthy : JSNum → Bool
  | JSNum.nan => false
  | JSNum.num q => decide (q ≠ 0)

/-- The ad hoc error objects thrown by the price route: an HTTP-style
code (absent for a genuine runtime exception such as a TypeError), a
message, and for the 409 case the candidate addresses. -/
structure ErrObj where
  code : Option Nat
  error : String
  addresses : List String
deriving DecidableEq

/-- IResponse of getTokenAndPrice; the output token field keeps the
spelling of the source. -/
structure IResponse where
  inputTokenInfo : TokenInfo
  ouptutTokenInfo : TokenInfo
  outputAmount : ℚ
  price : ℚ
deriving DecidableEq

/-- IPriceRoute: resolved query of one price computation. -/
structure IPriceRoute where
  input : String
  output : String
  amount : JSNum
deriving DecidableEq

def notFoundErr : ErrObj :=
  { code := some 404, error := "inputMint or outputMint not found", addresses := [] }

def duplicatedSymbolErr (symbolOrAddress : String) (addresses : List String) : ErrObj :=
  { code := some 409
    error := "Duplicated symbol found for " ++ symbolOrAddress ++ ", use one of the addresses instead"
    addresses := addresses }

def badAmountErr : ErrObj :=
  { code := some 400, error := "Amount must be greater than 0", addresses := [] }

/-- The first block of getTokenAndPrice: resolve both sides, throwing
404 when either is missing and 409 with the candidate addresses when
either resolves to an array. -/
def resolveMints (r : TokenInfoResolver) (input output : String) :
    Except ErrObj (TokenInfo × TokenInfo) :=
  match r.get input, r.get output with
  | none, _ => Except.error notFoundErr
  | _, none => Except.error notFoundErr
  | some (ResolveResult.many l), _ =>
    Except.error (duplicatedSymbolErr input (l.map (fun t => t.address)))
  | some (ResolveResult.one _), some (ResolveResult.many l) =>
    Except.error (duplicatedSymbolErr output (l.map (fun t => t.address)))
  | some (ResolveResult.one a), some (ResolveResult.one b) => Except.ok (a, b)

/-- Amount sanity check and scaling of getTokenAndPrice: throw 400 when
the amount is NaN or not positive, otherwise multiply by 10 to the input
token decimals and floor. -/
def validateAndScale (amount : JSNum) (decimals : Nat) : Except ErrObj Int :=
  match amount with
  | JSNum.nan => Except.error badAmountErr
  | JSNum.num q =>
    if q ≤ 0 then Except.error badAmountErr
    else Except.ok (Int.floor (q * (10 : ℚ) ^ decimals))

/-- getCacheKey: the input address, the vs token address and the scaled
integer amount joined with dashes. -/
def getCacheKey (inputTokenAddress vsTokenAddress : String) (amount : Int) : String :=
  inputTokenAddress ++ "-" ++ vsTokenAddress ++ "-" ++ toString amount

/-- One reply of the redis get/ttl pipeline (the per-command error slot
of an ioredis reply pair is ignored by the code, so only the value is
modelled). -/
inductive RedisReply where
  | getReply (value : Option IResponse)
  | ttlReply (seconds : Int)
deriving DecidableEq

/-- Everything getTokenAndPrice consumes besides the query: the token
resolver of the store, the outcome of the pipelined redis get/ttl call
per cache key (none when the call rejects), and the external
computeResult collaborator (route compute, pricing and caching), which
receives the resolved mints and the scaled amount. -/
structure PriceCtx where
  resolver : TokenInfoResolver
  cacheExec : String → Option (List RedisReply)
  computeResult : TokenInfo → TokenInfo → Int → Except ErrObj IResponse

/-- The runtime error thrown when a nested JS array destructuring meets
a missing element. -/
def typeErrorObj : ErrObj :=
  { code := none, error := "TypeError: undefined is not iterable", addresses := [] }

/-- JS destructuring of the first two elements of an array: fewer than
two elements leave the nested pattern destructuring undefined, which
throws. -/
def destructureTwo {α : Type} (l : List α) : Option (α × α) :=
  match l with
  | a :: b :: _ => some (a, b)
  | _ => none

/-- The value the code reads out of the first destructured reply
(cacheResult cast to string or null); a ttl reply in that slot does not
occur for the pipeline this code builds. -/
def replyAsGetResult : RedisReply → Option IResponse
  | RedisReply.getReply v => v
  | RedisReply.ttlReply _ => none

/-- getTokenAndPrice: resolve, validate and scale the amount, then read
the cache through the pipelined get/ttl call. A rejected pipeline is
caught and logged and the result defaults to an empty array, whose
destructuring into two reply pairs then throws a TypeError. A cache hit
returns the cached response (the stale-while-revalidate scheduling is a
side effect modelled by the refresh definitions); a miss runs
computeResult synchronously. -/
def getTokenAndPrice (ctx : PriceCtx) (route : IPriceRoute) : Except ErrObj IResponse :=
  match resolveMints ctx.resolver route.input route.output with
  | Except.error e => Except.error e
  | Except.ok (inputMintInfo, outputMintInfo) =>
    match validateAndScale route.amount inputMintInfo.decimals with
    | Except.error e => Except.error e
    | Except.ok inputAmount =>
      let cacheKey := getCacheKey inputMintInfo.address outputMintInfo.address inputAmount
      let redisResults := (ctx.cacheExec cacheKey).getD []
      match destructureTwo redisResults with
      | none => Except.error typeErrorObj
      | some (firstReply, _secondReply) =>
        match replyAsGetResult firstReply with
        | some found => Except.ok found
        | none => ctx.computeResult inputMintInfo outputMintInfo inputAmount

def USDC_ADDRESS : String := "EPjFWdd5AufqSSqeM2qN1xzybapC8G4wEGGkZwyTDt1v"

def truthyStr : Option String → Bool
  | none => false
  | some s => !s.isEmpty

def truthyNum : Option JSNum → Bool
  | none => false
  | some n => n.truthy

/-- The query selection of getTokenAndPriceArray: a truthy vsToken
becomes the input side, a truthy vsAmount the amount; falsy values fall
back to USDC and to 1. -/
def buildQuery (id : String) (vsToken : Option String) (vsAmount : Option JSNum) : IPriceRoute :=
  if truthyStr vsToken && truthyNum vsAmount then
    { input := vsToken.getD "", output := id, amount := vsAmount.getD (JSNum.num 1) }
  else if truthyStr vsToken then
    { input := vsToken.getD "", output := id, amount := JSNum.num 1 }
  else if truthyNum vsAmount then
    { input := USDC_ADDRESS, output := id, amount := vsAmount.getD (JSNum.num 1) }
  else
    { input := USDC_ADDRESS, output := id, amount := JSNum.num 1 }

/-- getTokenAndPriceArray: build the query and run getTokenAndPrice
(the following falsy-result check never fires on an ok result, which is
an object). -/
def getTokenAndPriceArray (ctx : PriceCtx) (id : String) (vsToken : Option String)
    (vsAmount : Option JSNum) : Except ErrObj IResponse :=
  getTokenAndPrice ctx (buildQuery id vsToken vsAmount)

/-- The amount that one request for a given id actually sends into
validation and scaling: buildQuery defaulting followed by the amount
check of getTokenAndPrice, against a resolved input token with the given
decimals. -/
def requestScaledAmount (id : String) (vsToken : Option String) (vsAmount : Option JSNum)
    (decimals : Nat) : Except ErrObj Int :=
  validateAndScale (buildQuery id vsToken vsAmount).amount decimals

def MAX_QUERY_ITEM : Nat := 100

def tooManyIdsErr : ErrObj :=
  { code := some 400, error := "Too many ids, only up to 100 supported.", addresses := [] }

/-- JS String.prototype.split on a comma separator, over the character
list: the pieces between commas in order, the empty string giving one
empty piece. -/
def splitCommaAux : List Char → List Char → List (List Char)
  | [], cur => [cur.reverse]
  | c :: rest, cur =>
    if c = ',' then cur.reverse :: splitCommaAux rest []
    else splitCommaAux rest (c :: cur)

/-- item.replaceAll(" ", ""). -/
def removeSpaces (l : List Char) : List Char :=
  l.filter (fun c => c ≠ ' ')

/-- ids.split(",") with spaces removed from each item. -/
def parseIds (ids : String) : List String :=
  (splitCommaAux ids.toList []).map (fun item => String.mk (removeSpaces item))

def dedupAux : List String → List String → List String
  | [], acc => acc.reverse
  | x :: xs, acc => if acc.contains x then dedupAux xs acc else dedupAux xs (x :: acc)

/-- Spreading a Set built from the array: first occurrences in order. -/
def dedup (l : List String) : List String := dedupAux l []

/-- One entry of the response hash. -/
structure PriceEntry where
  id : String
  mintSymbol : String
  vsToken : String
  vsTokenSymbol : String
  price : ℚ
deriving DecidableEq

/-- Successful route handler payload (timeTaken and contextSlot are
wall-clock and producer state, outside this model). -/
structure RouterData where
  data : List (String × PriceEntry)
deriving DecidableEq

/-- priceRouteRouter: split and clean the ids, reject more than 100 of
them, de-duplicate, then settle every per-id computation and keep only
the fulfilled ones in the response hash; a rejected id is left out
without failing the request. -/
def priceRouteRouter (ctx : PriceCtx) (ids : String) (vsToken : Option String)
    (vsAmount : Option JSNum) : Except ErrObj RouterData :=
  let idArray := parseIds ids
  if idArray.length > MAX_QUERY_ITEM then Except.error tooManyIdsErr
  else
    let uniqueIds := dedup idArray
    Except.ok
      { data :=
          uniqueIds.foldl
            (fun hash id =>
              match getTokenAndPriceArray ctx id vsToken vsAmount with
              | Except.error _ => hash
              | Except.ok r =>
                alSet hash id
                  { id := r.ouptutTokenInfo.address
                    mintSymbol := r.ouptutTokenInfo.symbol
                    vsToken := r.inputTokenInfo.address
                    vsTokenSymbol := r.inputTokenInfo.symbol
                    price := r.price })
            [] }

/-- HTTP status of the route: 200 on the happy path, the error code of a
thrown error object when it carries one, 500 otherwise. -/
def httpCode : Except ErrObj RouterData → Nat
  | Except.ok _ => 200
  | Except.error e => e.code.getD 500

def exceptIsOk {ε α : Type} : Except ε α → Bool
  | Except.ok _ => true
  | Except.error _ => false

/-- Concrete registry records used by the concrete evaluations below. -/
def usdcToken : TokenInfo :=
  { address := USDC_ADDRESS, symbol := "USDC", decimals := 6, tags := [] }

def solToken : TokenInfo :=
  { address := "So11111111111111111111111111111111111111112", symbol := "SOL",
    decimals := 9, tags := [] }

def fooVerified : TokenInfo :=
  { address := "FooVerifiedAddr", symbol := "FOO", decimals := 6, tags := [] }

def fooUnknown1 : TokenInfo :=
  { address := "FooUnknownAddr1", symbol := "FOO", decimals := 6, tags := ["unknown"] }

def fooUnknown2 : TokenInfo :=
  { address := "FooUnknownAddr2", symbol := "FOO", decimals := 9, tags := ["unknown"] }

theorem alGet_alSet_self {α : Type} (m : List (String × α)) (k : String) (v : α) :
    alGet (alSet m k v) k = some v := by
  induction m with
  | nil => simp [alSet, alGet]
  | cons p rest ih =>
    by_cases h : p.1 = k
    · simp [alSet, alGet, h]
    · simp [alSet, alGet, h, ih]

theorem alGet_alSet_ne {α : Type} (m : List (String × α)) (k k2 : String) (v : α)
    (h : k2 ≠ k) : alGet (alSet m k v) k2 = alGet m k2 := by
  have hk : ¬ k = k2 := fun hh => h hh.symm
  induction m with
  | nil => simp [alSet, alGet, hk]
  | cons p rest ih =>
    by_cases hp : p.1 = k
    · simp [alSet, alGet, hp, hk]
    · simp [alSet, alGet, hp, ih]

/-- C1: a merged address does not receive the new snapshot wholesale:
for an address already in the store only the data buffer is replaced.
Here the stored entry keeps owner OwnerOld, lamports 5 and executable
false even though the batch delivered OwnerNew, 7 and true, so the entry
after the merge is not the delivered snapshot. -/
theorem mergeBatch_patches_existing_entry_counterexample :
    mergeBatch
        [("Addr1", { owner := "OwnerOld", lamports := 5, data := [1],
                     executable := false, rentEpoch := 0 })]
        [("Addr1", { owner := "OwnerNew", lamports := 7, data := [2, 3],
                     executable := true, rentEpoch := 1 })]
      = [("Addr1", { owner := "OwnerOld", lamports := 5, data := [2, 3],
                     executable := false, rentEpoch := 0 })]
    ∧ decide
        (alGet
            (mergeBatch
              [("Addr1", { owner := "OwnerOld", lamports := 5, data := [1],
                           executable := false, rentEpoch := 0 })]
              [("Addr1", { owner := "OwnerNew", lamports := 7, data := [2, 3],
                           executable := true, rentEpoch := 1 })]) "Addr1"
          = some { owner := "OwnerNew", lamports := 7, data := [2, 3],
                   executable := true, rentEpoch := 1 }) = false := by
  constructor
  · rfl
  · rfl

/-- C1 (amended): the merge of one account replaces only the data field
of a pre-existing entry, keeping its other fields, and inserts the full
incoming snapshot only for a previously unknown address. -/
theorem mergeAccountInfo_characterization
    (store : List (String × AccountSnapshot)) (key : String) (value : AccountSnapshot) :
    alGet (mergeAccountInfo store key value) key
      = some
          (match alGet store key with
           | some old => { old with data := bufferFrom value.data }
           | none => { value with data := bufferFrom value.data, owner := publicKeyOf value.owner }) := by
  unfold mergeAccountInfo
  cases h : alGet store key with
  | none => simp [h, alGet_alSet_self]
  | some old => simp [h, alGet_alSet_self]

/-- C3: when the background compute throws, the shared marker is not
cleared: starting from a clean state, a failing refresh leaves the
marker set even though the local tracker entry is removed. -/
theorem runRefreshBody_failure_keeps_marker_counterexample :
    runRefreshBody false { markerPresent := false, inLocalSet := false }
      = { markerPresent := true, inLocalSet := false } := by
  rfl

/-- C3 (amended): after a refresh body runs, the key is always removed
from the local tracker (finally block), but the shared marker is cleared
exactly when the compute succeeded; on a failed compute it stays set
until its TTL expires. -/
theorem runRefreshBody_cleanup (computeSucceeds : Bool) (s : RefreshKeyState) :
    (runRefreshBody computeSucceeds s).inLocalSet = false
      ∧ (runRefreshBody computeSucceeds s).markerPresent = !computeSucceeds := by
  cases computeSucceeds <;> exact ⟨rfl, rfl⟩

/-- C7: with exactly 10 keys already in the local tracker, a refresh for
a new key is not dropped, although the claim says 10 or more in-flight
entries drop it. -/
theorem refreshDropped_at_ten_counterexample :
    refreshDropped ["k0", "k1", "k2", "k3", "k4", "k5", "k6", "k7", "k8", "k9"]
        "newKey" false = false
    ∧ (["k0", "k1", "k2", "k3", "k4", "k5", "k6", "k7", "k8", "k9"] : List String).length
        = 10 := by
  constructor
  · rfl
  · rfl

/-- C7 (amended): a refresh request is dropped exactly when the key is
already tracked locally, or the local tracker holds more than 10 (that
is, at least 11) entries, or the shared marker is present; at exactly 10
tracked entries it still proceeds. -/
theorem refreshDropped_characterization (tracker : List String) (cacheKey : String)
    (markerPresent : Bool) :
    refreshDropped tracker cacheKey markerPresent
      = (tracker.contains cacheKey || decide (11 ≤ tracker.length) || markerPresent) := by
  have hlen : decide (tracker.length > 10) = decide (11 ≤ tracker.length) :=
    decide_eq_decide.mpr (by omega)
  unfold refreshDropped
  rw [← hlen]
  cases hc : tracker.contains cacheKey <;>
    cases hl : decide (tracker.length > 10) <;>
      cases markerPresent <;> simp [hc, hl]

theorem deserializeStep_none_absorb (decompress : String → Option (List Nat)) :
    ∀ m : List (String × RawAccountInfo),
      m.foldl (deserializeStep decompress) none = none := by
  intro m
  induction m with
  | nil => rfl
  | cons kv rest ih => simpa [deserializeStep] using ih

theorem deserialize_foldl_isNone (decompress : String → Option (List Nat)) :
    ∀ (m : List (String × RawAccountInfo)) (out : List (String × AccountSnapshot)),
      (m.foldl (deserializeStep decompress) (some out)).isNone
        = m.any (fun kv => (deserializeAccountInfo decompress kv.2).isNone) := by
  intro m
  induction m with
  | nil => intro out; rfl
  | cons kv rest ih =>
    intro out
    cases h : deserializeAccountInfo decompress kv.2 with
    | none =>
      simp [List.foldl_cons, deserializeStep, h, deserializeStep_none_absorb]
    | some v =>
      simp [List.foldl_cons, deserializeStep, h, ih]

/-- C5 (amended): one failing payload makes the whole batch
deserialization throw; the call produces a map exactly when every
address decodes, with no per-address skipping. -/
theorem deserializeAccountInfosMap_fails_iff_any_fails
    (decompress : String → Option (List Nat)) (m : List (String × RawAccountInfo)) :
    (deserializeAccountInfosMap decompress m).isNone
      = m.any (fun kv => (deserializeAccountInfo decompress kv.2).isNone) := by
  unfold deserializeAccountInfosMap
  exact deserialize_foldl_isNone decompress m []

/-- C5: a decompression failure on the first address makes the whole
batch fail, even though the second address decodes on its own; nothing
of the batch is merged. -/
theorem deserializeAccountInfosMap_aborts_batch_counterexample :
    deserializeAccountInfosMap
        (fun s => if s = "good" then some [7] else none)
        [("AddrBad", { owner := "O1", lamports := 1, data := ["bad"],
                       executable := false, rentEpoch := 0 }),
         ("AddrGood", { owner := "O2", lamports := 2, data := ["good"],
                        executable := false, rentEpoch := 0 })]
      = none
    ∧ deserializeAccountInfo (fun s => if s = "good" then some [7] else none)
        { owner := "O2", lamports := 2, data := ["good"],
          executable := false, rentEpoch := 0 }
      = some { owner := "O2", lamports := 2, data := [7],
               executable := false, rentEpoch := 0 } := by
  constructor
  · rfl
  · rfl

/-- C2: an interleaving of two instances refreshing the same key in
which both pass admission: each reads the absent marker before either
sets it, and afterwards both computes are in flight at once. -/
theorem two_refreshes_in_flight_counterexample :
    fineBothComputing (fineRun [0, 0, 1, 1, 0, 0, 1, 1]) = true := by
  rfl

theorem atomicInv_step (s : AtomicState) (i : Fin 2) :
    atomicInv s = true → atomicInv (atomicSysStep s i) = true := by
  revert s i
  decide

theorem atomicInv_run (sched : List (Fin 2)) :
    ∀ s : AtomicState, atomicInv s = true
      → atomicInv (sched.foldl atomicSysStep s) = true := by
  induction sched with
  | nil => intro s hs; simpa using hs
  | cons i rest ih =>
    intro s hs
    simpa using ih (atomicSysStep s i) (atomicInv_step s i hs)

/-- C2 (amended): when admission (tracker check, marker read, marker
set, tracker add) is atomic, the shared marker does give single-flight
per key: under every interleaving of the two instances, at most one
compute is in flight at any time. The code separates the marker read
from the marker set across awaits, which breaks this. -/
theorem atomic_admission_single_flight (sched : List (Fin 2)) :
    atomicBothComputing (atomicRun sched) = false := by
  have hinv : atomicInv (atomicRun sched) = true :=
    atomicInv_run sched atomicInit (by decide)
  have hconc : ∀ s : AtomicState, atomicInv s = true → atomicBothComputing s = false := by
    decide
  exact hconc (atomicRun sched) hinv

/-- Length of an optional bucket; an absent bucket counts as empty. -/
def optLen {α : Type} : Option (List α) → Nat
  | none => 0
  | some l => l.length

/-- Outcome shape of a symbol lookup as a function of the verified and
all-records bucket sizes. -/
def kindFromLens (v a : Nat) : LookupKind :=
  if v = 1 then LookupKind.single
  else if 1 < a then LookupKind.ambiguous
  else if a = 1 then LookupKind.single
  else LookupKind.missing

theorem moveUnknownRight_length (l : List TokenInfo) :
    (moveUnknownRight l).length = l.length := by
  induction l with
  | nil => rfl
  | cons t rest ih =>
    by_cases h : isUnknownToken t <;>
      simp [moveUnknownRight, List.filter_cons, h, List.length_append] at ih ⊢ <;> omega

theorem addToken_verified_optLen (r : TokenInfoResolver) (t : TokenInfo) (symbol : String) :
    optLen (alGet (addToken r t).verifiedSymbolMap symbol)
      = optLen (alGet r.verifiedSymbolMap symbol)
        + (if t.symbol = symbol ∧ isUnknownToken t = false then 1 else 0) := by
  unfold addToken
  cases hu : isUnknownToken t with
  | true => simp [hu]
  | false =>
    by_cases hs : t.symbol = symbol
    · subst hs
      cases hv : alGet r.verifiedSymbolMap t.symbol with
      | none => simp [hu, hv, alGet_alSet_self, optLen]
      | some l => simp [hu, hv, alGet_alSet_self, optLen]
    · cases hv : alGet r.verifiedSymbolMap t.symbol with
      | none => simp [hu, hv, alGet_alSet_ne _ _ _ _ (Ne.symm hs), hs]
      | some l => simp [hu, hv, alGet_alSet_ne _ _ _ _ (Ne.symm hs), hs]

theorem addToken_all_optLen (r : TokenInfoResolver) (t : TokenInfo) (symbol : String) :
    optLen (alGet (addToken r t).allSymbolMap symbol)
      = optLen (alGet r.allSymbolMap symbol) + (if t.symbol = symbol then 1 else 0) := by
  unfold addToken
  by_cases hs : t.symbol = symbol
  · subst hs
    cases ha : alGet r.allSymbolMap t.symbol with
    | none => simp [ha, alGet_alSet_self, optLen]
    | some l => simp [ha, alGet_alSet_self, optLen, moveUnknownRight_length]
  · cases ha : alGet r.allSymbolMap t.symbol with
    | none => simp [ha, alGet_alSet_ne _ _ _ _ (Ne.symm hs), hs]
    | some l => simp [ha, alGet_alSet_ne _ _ _ _ (Ne.symm hs), hs]

theorem buildResolver_optLen (records : List TokenInfo) :
    ∀ (r : TokenInfoResolver) (symbol : String),
      optLen (alGet (records.foldl addToken r).verifiedSymbolMap symbol)
          = optLen (alGet r.verifiedSymbolMap symbol) + countVerifiedSymbol records symbol
        ∧ optLen (alGet (records.foldl addToken r).allSymbolMap symbol)
          = optLen (alGet r.allSymbolMap symbol) + countSymbol records symbol := by
  induction records with
  | nil => intro r symbol; simp [countVerifiedSymbol, countSymbol]
  | cons t rest ih =>
    intro r symbol
    obtain ⟨h1, h2⟩ := ih (addToken r t) symbol
    have hv := addToken_verified_optLen r t symbol
    have ha := addToken_all_optLen r t symbol
    constructor
    · simp only [List.foldl_cons, countVerifiedSymbol] at h1 ⊢
      omega
    · simp only [List.foldl_cons, countSymbol] at h2 ⊢
      omega

theorem kindOf_fromAll (oa : Option (List TokenInfo)) :
    kindOf
        (match oa with
         | some allTokens =>
           if allTokens.length > 1 then some (ResolveResult.many allTokens)
           else
             match allTokens with
             | [t] => some (ResolveResult.one t)
             | _ => none
         | none => none)
      = (if 1 < optLen oa then LookupKind.ambiguous
         else if optLen oa = 1 then LookupKind.single
         else LookupKind.missing) := by
  cases oa with
  | none => rfl
  | some al =>
    match al with
    | [] => rfl
    | [t] => rfl
    | t1 :: t2 :: rest =>
      have h : 1 < (t1 :: t2 :: rest).length := by simp
      simp [h, optLen, kindOf]

theorem kindOf_getTokenInfoFromSymbol (r : TokenInfoResolver) (symbol : String) :
    kindOf (getTokenInfoFromSymbol r symbol)
      = kindFromLens (optLen (alGet r.verifiedSymbolMap symbol))
          (optLen (alGet r.allSymbolMap symbol)) := by
  unfold getTokenInfoFromSymbol kindFromLens
  cases hv : alGet r.verifiedSymbolMap symbol with
  | none => simpa [optLen] using kindOf_fromAll (alGet r.allSymbolMap symbol)
  | some vl =>
    match vl with
    | [] => simpa [optLen] using kindOf_fromAll (alGet r.allSymbolMap symbol)
    | [t] => simp [optLen, kindOf]
    | t1 :: t2 :: rest =>
      have h : ¬ (t1 :: t2 :: rest).length = 1 := by simp
      simpa [optLen, h] using kindOf_fromAll (alGet r.allSymbolMap symbol)

/-- C8 (amended): symbol lookup is ambiguous whenever more than one
record shares the symbol, except when exactly one verified record
carries it: then that verified record is returned alone, whatever the
other records are. -/
theorem getTokenInfoFromSymbol_ambiguity (records : List TokenInfo) (symbol : String) :
    kindOf (getTokenInfoFromSymbol (buildResolver records) symbol)
      = (if countVerifiedSymbol records symbol = 1 then LookupKind.single
         else if 1 < countSymbol records symbol then LookupKind.ambiguous
         else if countSymbol records symbol = 1 then LookupKind.single
         else LookupKind.missing) := by
  obtain ⟨h1, h2⟩ := buildResolver_optLen records emptyResolver symbol
  unfold buildResolver
  rw [kindOf_getTokenInfoFromSymbol, h1, h2]
  simp [emptyResolver, alGet, optLen, kindFromLens]

/-- C8: two records share symbol FOO, one verified and one
unknown-tagged, yet the lookup returns the single verified record
instead of an ambiguous candidate list. -/
theorem duplicated_symbol_single_verified_counterexample :
    getTokenInfoFromSymbol (buildResolver [fooVerified, fooUnknown1]) "FOO"
        = some (ResolveResult.one fooVerified)
    ∧ countSymbol [fooVerified, fooUnknown1] "FOO" = 2 := by
  constructor
  · rfl
  · rfl

theorem floor_ten_pow (decimals : Nat) :
    Int.floor ((10 : ℚ) ^ decimals) = (10 : Int) ^ decimals := by
  rw [show ((10 : ℚ) ^ decimals) = (((10 : Int) ^ decimals : Int) : ℚ) by push_cast; ring]
  exact Int.floor_intCast _

theorem validateAndScale_one (decimals : Nat) :
    validateAndScale (JSNum.num 1) decimals = Except.ok ((10 : Int) ^ decimals) := by
  show (if (1 : ℚ) ≤ 0 then Except.error badAmountErr
        else Except.ok (Int.floor ((1 : ℚ) * (10 : ℚ) ^ decimals)))
      = Except.ok ((10 : Int) ^ decimals)
  rw [if_neg (by norm_num), one_mul, floor_ten_pow]

/-- C9 (amended): only a negative requested amount is rejected with the
400 validation error; an amount of 0 or NaN is falsy and silently
replaced by the default 1 before validation, and a positive amount is
scaled by 10 to the input decimals and floored. -/
theorem requestScaledAmount_policy (id : String) (vsToken : Option String)
    (vsAmount : Option JSNum) (decimals : Nat) :
    requestScaledAmount id vsToken vsAmount decimals
      = (match vsAmount with
         | some (JSNum.num q) =>
           if q < 0 then Except.error badAmountErr
           else if q = 0 then Except.ok ((10 : Int) ^ decimals)
           else Except.ok (Int.floor (q * (10 : ℚ) ^ decimals))
         | _ => Except.ok ((10 : Int) ^ decimals)) := by
  cases vsAmount with
  | none =>
    cases htv : truthyStr vsToken <;>
      simp [requestScaledAmount, buildQuery, truthyNum, htv, validateAndScale_one]
  | some n =>
    cases n with
    | nan =>
      cases htv : truthyStr vsToken <;>
        simp [requestScaledAmount, buildQuery, truthyNum, JSNum.truthy, htv,
          validateAndScale_one]
    | num q =>
      rcases lt_trichotomy q 0 with hq | hq | hq
      · have hne : q ≠ 0 := ne_of_lt hq
        have hle : q ≤ 0 := le_of_lt hq
        cases htv : truthyStr vsToken <;>
          simp [requestScaledAmount, buildQuery, truthyNum, JSNum.truthy, htv, hne,
            validateAndScale, hle, hq]
      · subst hq
        cases htv : truthyStr vsToken <;>
          simp [requestScaledAmount, buildQuery, truthyNum, JSNum.truthy, htv,
            validateAndScale_one]
      · have hne : q ≠ 0 := ne_of_gt hq
        have hnle : ¬ q ≤ 0 := not_le.mpr hq
        have hnlt : ¬ q < 0 := asymm hq
        cases htv : truthyStr vsToken <;>
          simp [requestScaledAmount, buildQuery, truthyNum, JSNum.truthy, htv, hne,
            validateAndScale, hnle, hnlt]

/-- C9: a requested vsAmount of 0 is not rejected with a validation
error: it is falsy, so the default of 1 replaces it and the request is
scaled and served; the same happens for NaN. -/
theorem zero_amount_not_rejected_counterexample :
    requestScaledAmount "SOL" none (some (JSNum.num 0)) 6 = Except.ok 1000000
    ∧ requestScaledAmount "SOL" none (some JSNum.nan) 6 = Except.ok 1000000 := by
  have h : validateAndScale (JSNum.num 1) 6 = Except.ok 1000000 := by
    rw [validateAndScale_one]
    norm_num
  constructor
  · show validateAndScale (buildQuery "SOL" none (some (JSNum.num 0))).amount 6
        = Except.ok 1000000
    rw [show (buildQuery "SOL" none (some (JSNum.num 0))).amount = JSNum.num 1 by decide]
    exact h
  · show validateAndScale (buildQuery "SOL" none (some JSNum.nan)).amount 6
        = Except.ok 1000000
    rw [show (buildQuery "SOL" none (some JSNum.nan)).amount = JSNum.num 1 by decide]
    exact h

def mainResolver : TokenInfoResolver := buildResolver [usdcToken, solToken]

def usdcSolRoute : IPriceRoute :=
  { input := USDC_ADDRESS, output := "So11111111111111111111111111111111111111112",
    amount := JSNum.num 1 }

/-- C4: when the pipelined cache read rejects, the catch-and-default
leaves an empty reply array whose destructuring throws, so the lookup
errors without ever invoking the compute collaborator; with a working
cache connection reporting a miss, the same query computes
synchronously. The catch with its empty-array default shows the code
meant to degrade a cache failure to a miss. -/
theorem cache_rejection_throws_instead_of_computing
    (computeResult : TokenInfo → TokenInfo → Int → Except ErrObj IResponse) :
    getTokenAndPrice
        { resolver := mainResolver, cacheExec := fun _ => none,
          computeResult := computeResult } usdcSolRoute
      = Except.error typeErrorObj
    ∧ getTokenAndPrice
        { resolver := mainResolver,
          cacheExec := fun _ => some [RedisReply.getReply none, RedisReply.ttlReply (-2)],
          computeResult := computeResult } usdcSolRoute
      = computeResult usdcToken solToken 1000000 := by
  constructor
  · rfl
  · have hval : validateAndScale usdcSolRoute.amount usdcToken.decimals
        = Except.ok 1000000 := by
      rw [show validateAndScale usdcSolRoute.amount usdcToken.decimals
            = validateAndScale (JSNum.num 1) 6 from rfl, validateAndScale_one]
      norm_num
    simp only [getTokenAndPrice]
    rw [show resolveMints mainResolver usdcSolRoute.input usdcSolRoute.output
          = Except.ok (usdcToken, solToken) from rfl]
    simp [hval, destructureTwo, replyAsGetResult]

theorem dedupAux_length (l : List String) :
    ∀ acc : List String, (dedupAux l acc).length ≤ l.length + acc.length := by
  induction l with
  | nil => intro acc; simp [dedupAux]
  | cons x xs ih =>
    intro acc
    unfold dedupAux
    by_cases h : acc.contains x
    · rw [if_pos h]
      have hx := ih acc
      simp only [List.length_cons]
      omega
    · rw [if_neg h]
      have hx := ih (x :: acc)
      simp only [List.length_cons] at hx ⊢
      omega

/-- C6 (amended): the 100-id limit is enforced on the raw
comma-separated list before de-duplication: the request passes the check
exactly when the raw list has at most 100 items; since the distinct list
is never longer than the raw one, more than 100 distinct ids still fail,
but duplicates count against the limit. -/
theorem id_limit_on_raw_list :
    (∀ (ctx : PriceCtx) (ids : String) (vsToken : Option String) (vsAmount : Option JSNum),
        exceptIsOk (priceRouteRouter ctx ids vsToken vsAmount)
          = decide ((parseIds ids).length ≤ MAX_QUERY_ITEM))
    ∧ ∀ l : List String, (dedup l).length ≤ l.length := by
  constructor
  · intro ctx ids vsToken vsAmount
    unfold priceRouteRouter
    by_cases h : (parseIds ids).length > MAX_QUERY_ITEM
    · simp [h, exceptIsOk, Nat.not_le.mpr h]
    · simp [h, exceptIsOk, Nat.le_of_not_lt h]
  · intro l
    simpa [dedup] using dedupAux_length l []

/-- Context with two unknown-tagged tokens sharing symbol FOO, a USDC
record, a cache that always misses and a compute collaborator that finds
no route. -/
def ambigCtx : PriceCtx :=
  { resolver := buildResolver [usdcToken, fooUnknown1, fooUnknown2]
    cacheExec := fun _ => some [RedisReply.getReply none, RedisReply.ttlReply (-2)]
    computeResult := fun _ _ _ =>
      Except.error { code := some 400, error := "No routes found", addresses := [] } }

set_option maxRecDepth 40000 in
/-- C6: 101 raw ids that are all the same single token still fail the
limit check with the 400 error, although only one distinct id was
requested. -/
theorem duplicate_ids_still_rejected_counterexample :
    priceRouteRouter ambigCtx (String.intercalate "," (List.replicate 101 "SOL")) none none
      = Except.error tooManyIdsErr
    ∧ (dedup (parseIds (String.intercalate "," (List.replicate 101 "SOL")))).length = 1 := by
  constructor
  · decide
  · decide

/-- C10 (amended): per-id resolution failures carry codes 404 and 409
in their thrown error objects, but the allSettled aggregation swallows
them and leaves the ids out of the response; the HTTP status is 200 for
every request that passes the id-count check and 400 otherwise, never
404 or 409. -/
theorem priceRouteRouter_status (ctx : PriceCtx) (ids : String)
    (vsToken : Option String) (vsAmount : Option JSNum) :
    httpCode (priceRouteRouter ctx ids vsToken vsAmount)
      = if (parseIds ids).length > MAX_QUERY_ITEM then 400 else 200 := by
  unfold priceRouteRouter
  by_cases h : (parseIds ids).length > MAX_QUERY_ITEM <;>
    simp [h, httpCode, tooManyIdsErr]

/-- C10: an unresolved id makes the per-id computation fail with code
404 and an ambiguous symbol with code 409 and the candidate addresses,
yet the route response is a 200 success with both ids simply omitted. -/
theorem per_id_failures_swallowed_counterexample :
    getTokenAndPriceArray ambigCtx "ZZZ" none none = Except.error notFoundErr
    ∧ getTokenAndPriceArray ambigCtx "FOO" none none
        = Except.error (duplicatedSymbolErr "FOO" ["FooUnknownAddr1", "FooUnknownAddr2"])
    ∧ priceRouteRouter ambigCtx "ZZZ,FOO" none none = Except.ok { data := [] }
    ∧ httpCode (priceRouteRouter ambigCtx "ZZZ,FOO" none none) = 200 := by
  refine ⟨rfl, rfl, by decide, by decide⟩
